import Mathlib

/-!
Verification of the HVAC simulator control core (`hvac_sim.py`).

The control loop `hvac_loop` is embedded shallowly: machine floats become
rationals, the per-iteration body of the loop becomes the pure function
`hvacTick`, the two `random.uniform` draws become explicit `Noise`
parameters, and the `deque(maxlen=600)` telemetry buffers become a
capacity-bounded list fold.  Each definition cites the source lines it
embeds.
-/

namespace HvacSim

/-- Source line 57: `TICK_SECONDS = 1.0`. -/
def TICK_SECONDS : ℚ := 1

/-- Source line 59: `AMBIENT_TEMP_C = 24.0`. -/
def AMBIENT_TEMP_C : ℚ := 24

/-- Source line 60: `INTERNAL_LOAD_DEGC = 5.0`. -/
def INTERNAL_LOAD_DEGC : ℚ := 5

/-- Source line 61: `ROOM_TIME_CONSTANT = 120.0`. -/
def ROOM_TIME_CONSTANT : ℚ := 120

/-- Source line 63: `AIRFLOW_MAX_COOL = 1.5 / 60.0`. -/
def AIRFLOW_MAX_COOL : ℚ := (3 / 2) / 60

/-- Source line 64: `CHILLER_MAX_COOL = 10.0 / 60.0`. -/
def CHILLER_MAX_COOL : ℚ := 10 / 60

/-- Source line 66: `CHILLER_KP = 40.0`. -/
def CHILLER_KP : ℚ := 40

/-- Source line 67: `CHILLER_KI = 0.3`. -/
def CHILLER_KI : ℚ := 3 / 10

/-- Source line 68: `CHILLER_LAG = 0.30`. -/
def CHILLER_LAG : ℚ := 3 / 10

/-- Source line 69: `CHILLER_INT_LIMIT = 200.0`. -/
def CHILLER_INT_LIMIT : ℚ := 200

/-- Source line 71: `NOISE_TEMP = 0.05`. -/
def NOISE_TEMP : ℚ := 5 / 100

/-- Source line 72: `NOISE_CHILLER = 0.8`. -/
def NOISE_CHILLER : ℚ := 8 / 10

/-- The `max(lo, min(hi, x))` idiom used throughout `hvac_loop`. -/
def clamp (lo hi x : ℚ) : ℚ := max lo (min hi x)

/-- The module-level mutable process variables (source lines 48-50):
`current_temp_c`, `chiller_speed_pct`, `chiller_integral`. -/
structure ProcState where
  current_temp_c : ℚ
  chiller_speed_pct : ℚ
  chiller_integral : ℚ
deriving DecidableEq

/-- The commanded inputs read at the start of a tick (source lines 194-197):
setpoint, intake fan %, exhaust fan %, emergency stop. -/
structure Inputs where
  setpoint : ℚ
  intake : ℚ
  exhaust : ℚ
  e_stop : Bool
deriving DecidableEq

/-- The two `random.uniform` draws of a tick (source lines 215 and 227),
made explicit parameters. -/
structure Noise where
  chiller : ℚ
  temp : ℚ
deriving DecidableEq

/-- Source line 199: `airflow = max(0.0, min(100.0, (intake + exhaust) / 2.0))`. -/
def airflowCmd (inp : Inputs) : ℚ := clamp 0 100 ((inp.intake + inp.exhaust) / 2)

/-- The value of the `airflow` variable after the e-stop branch
(source lines 199-203): forced to `0.0` when `e_stop` holds. -/
def effAirflow (inp : Inputs) : ℚ := if inp.e_stop then 0 else airflowCmd inp

/-- The value of `chiller_integral` after the e-stop branch (source lines
204 and 206-210): zeroed under e-stop, otherwise accumulated with the
error times the tick duration and clamped to `±CHILLER_INT_LIMIT`. -/
def newIntegral (dt : ℚ) (s : ProcState) (inp : Inputs) : ℚ :=
  if inp.e_stop then 0
  else clamp (-CHILLER_INT_LIMIT) CHILLER_INT_LIMIT
    (s.chiller_integral + (s.current_temp_c - inp.setpoint) * dt)

/-- The value of `chiller_target` after the e-stop branch (source lines
202 and 211-212): zero under e-stop, otherwise the clamped PI law applied
to the already-updated integral. -/
def chillerTarget (dt : ℚ) (s : ProcState) (inp : Inputs) : ℚ :=
  if inp.e_stop then 0
  else clamp 0 100
    (CHILLER_KP * (s.current_temp_c - inp.setpoint) + CHILLER_KI * newIntegral dt s inp)

/-- The value of `chiller_speed_pct` after source lines 214-216: first-order
lag toward the target, additive noise, clamp to `[0, 100]`. -/
def newChiller (dt : ℚ) (s : ProcState) (inp : Inputs) (nz : Noise) : ℚ :=
  clamp 0 100
    (s.chiller_speed_pct + (chillerTarget dt s inp - s.chiller_speed_pct) * CHILLER_LAG
      + nz.chiller)

/-- Source lines 218-222: `cooling_power`, computed from the possibly
e-stop-forced airflow and the already-updated chiller speed. -/
def coolingPower (dt : ℚ) (s : ProcState) (inp : Inputs) (nz : Noise) : ℚ :=
  (effAirflow inp / 100) * AIRFLOW_MAX_COOL
    + (newChiller dt s inp nz / 100) * CHILLER_MAX_COOL

/-- The value of `current_temp_c` after source lines 224-228: Euler step of
the first-order thermal model, additive noise, clamp to `[10, 40]`. -/
def newTemp (dt : ℚ) (s : ProcState) (inp : Inputs) (nz : Noise) : ℚ :=
  clamp 10 40
    (s.current_temp_c
      + ((AMBIENT_TEMP_C + INTERNAL_LOAD_DEGC - s.current_temp_c) / ROOM_TIME_CONSTANT
          - coolingPower dt s inp nz) * dt
      + nz.temp)

/-- One iteration of the `hvac_loop` body (source lines 194-228) as a pure
state transformer, parameterized by the tick duration `dt` that the source
hard-wires to `TICK_SECONDS`. -/
def hvacTick (dt : ℚ) (s : ProcState) (inp : Inputs) (nz : Noise) : ProcState :=
  { current_temp_c := newTemp dt s inp nz
    chiller_speed_pct := newChiller dt s inp nz
    chiller_integral := newIntegral dt s inp }

/-- The tick exactly as the loop runs it: `dt = TICK_SECONDS` (lines 207, 225). -/
def loopTick (s : ProcState) (inp : Inputs) (nz : Noise) : ProcState :=
  hvacTick TICK_SECONDS s inp nz

/-- One record appended to the telemetry buffers each tick
(source lines 233-239): the six parallel `data_buf` appends. -/
structure TelemetrySample where
  timestamp : ℚ
  temp : ℚ
  setp : ℚ
  chill : ℚ
  intake : ℚ
  exhaust : ℚ
deriving DecidableEq

/-- The sample a tick appends (source lines 233-239): note line 238 appends
the `airflow` variable into the `intake` series, and line 239 appends the
commanded `exhaust`. -/
def tickSample (dt : ℚ) (s : ProcState) (inp : Inputs) (nz : Noise) (now : ℚ) :
    TelemetrySample :=
  { timestamp := now
    temp := newTemp dt s inp nz
    setp := inp.setpoint
    chill := newChiller dt s inp nz
    intake := effAirflow inp
    exhaust := inp.exhaust }

/-- The two read-only points published at the end of a tick
(source lines 230-231): `ai_temp.presentValue`, `ai_chiller.presentValue`. -/
structure Published where
  temp : ℚ
  chill : ℚ
deriving DecidableEq

/-- The pair of published values corresponding to a process state. -/
def publishOutputs (s : ProcState) : Published :=
  { temp := s.current_temp_c, chill := s.chiller_speed_pct }

/-- Source line 230: the assignment `ai_temp.presentValue = current_temp_c`. -/
def publishTempWrite (v : ℚ) (p : Published) : Published := { p with temp := v }

/-- Source line 231: the assignment `ai_chiller.presentValue = chiller_speed_pct`. -/
def publishChillWrite (v : ℚ) (p : Published) : Published := { p with chill := v }

/-- The publish at the end of a tick as it appears in the source: a sequence
of two separate field writes (lines 230 then 231), with no lock around them. -/
def publishSeq (target : Published) : List (Published → Published) :=
  [publishTempWrite target.temp, publishChillWrite target.chill]

/-- What a concurrent reader observes if it samples both points after the
writer has executed the first `k` of the two publish writes (`k = 0`: before
line 230; `k = 1`: between lines 230 and 231; `k = 2`: after line 231). -/
def observeDuringPublish (old target : Published) (k : ℕ) : Published :=
  ((publishSeq target).take k).foldl (fun p f => f p) old

/-- Source line 500: `deque(maxlen=600)`. -/
def TELEMETRY_CAPACITY : ℕ := 600

/-- One append to a `deque(maxlen=cap)`: the element joins on the right and,
if the capacity is exceeded, the oldest elements leave from the left. -/
def ringAppend {α : Type} (cap : ℕ) (buf : List α) (x : α) : List α :=
  let b := buf ++ [x]
  if cap < b.length then b.drop (b.length - cap) else b

/-- Appending a whole list of samples, one tick at a time, to an initially
empty ring of capacity `cap`. -/
def ringOfList {α : Type} (cap : ℕ) (xs : List α) : List α :=
  xs.foldl (ringAppend cap) []

/-- Initial process state (source lines 48-50):
`current_temp_c = 22.0`, `chiller_speed_pct = 30.0`, `chiller_integral = 0.0`. -/
def initState : ProcState :=
  { current_temp_c := 22, chiller_speed_pct := 30, chiller_integral := 0 }

/-- Initial commanded inputs (source lines 52-55):
setpoint 23, both fans 30, e-stop off. -/
def initInputs : Inputs :=
  { setpoint := 23, intake := 30, exhaust := 30, e_stop := false }

/-- Both noise draws zero (the "zero noise" setting of the scenarios). -/
def zeroNoise : Noise := { chiller := 0, temp := 0 }

/-- A fixed input snapshot with the e-stop latched (the analog values are the
defaults; under e-stop they do not influence the physics). -/
def estopInputs : Inputs := { setpoint := 23, intake := 30, exhaust := 30, e_stop := true }

/-- One noise-free tick with the e-stop held active. -/
def estopStep (s : ProcState) : ProcState := hvacTick TICK_SECONDS s estopInputs zeroNoise

/-- Initial state of the 10-tick scenario: room 22 °C, chiller output 0 %,
clean integrator. -/
def scenInit : ProcState :=
  { current_temp_c := 22, chiller_speed_pct := 0, chiller_integral := 0 }

/-- Commanded inputs of the 10-tick scenario: setpoint 23 °C, both fans at
their default 30 %, e-stop off. -/
def scenInputs : Inputs := initInputs

/-- One noise-free scenario tick of `dt = 1 s`. -/
def scenStep (s : ProcState) : ProcState := hvacTick 1 s scenInputs zeroNoise

/-- The scenario state after `n` ticks. -/
def scenState (n : ℕ) : ProcState := scenStep^[n] scenInit

/-- The outputs published at the end of the first noise-free tick from the
initial state under the default commanded inputs. -/
def publish1 : Published := publishOutputs (loopTick initState initInputs zeroNoise)

/-- The outputs published at the end of the second such tick. -/
def publish2 : Published :=
  publishOutputs (loopTick (loopTick initState initInputs zeroNoise) initInputs zeroNoise)

/-- A snapshot commanding the intake fan to 80 % and the exhaust fan to 20 %. -/
def unevenFans : Inputs := { setpoint := 23, intake := 80, exhaust := 20, e_stop := false }

/-- A concrete telemetry sample, used to instantiate ring-buffer statements. -/
def sample0 : TelemetrySample :=
  { timestamp := 0, temp := 22, setp := 23, chill := 30, intake := 30, exhaust := 30 }

theorem clamp_lower (lo hi x : ℚ) : lo ≤ clamp lo hi x :=
  le_max_left _ _

theorem clamp_upper (lo hi x : ℚ) (h : lo ≤ hi) : clamp lo hi x ≤ hi :=
  max_le h (min_le_left _ _)

theorem clamp_eq_self (lo hi x : ℚ) (h1 : lo ≤ x) (h2 : x ≤ hi) : clamp lo hi x = x := by
  unfold clamp
  rw [min_eq_right h2, max_eq_right h1]

/-- C1: on every tick with `emergency_stop` commanded true, the tick leaves the
integral accumulator at exactly 0, uses airflow 0 in the cooling-power
computation (so the airflow contribution to cooling power is 0), and feeds
chiller target demand 0 to the lag filter — on every such tick, not only on
the transition into e-stop. -/
theorem estop_tick_invariant (dt : ℚ) (s : ProcState) (inp : Inputs) (nz : Noise)
    (h : inp.e_stop = true) :
    (hvacTick dt s inp nz).chiller_integral = 0 ∧
    effAirflow inp = 0 ∧
    (effAirflow inp / 100) * AIRFLOW_MAX_COOL = 0 ∧
    chillerTarget dt s inp = 0 := by
  refine ⟨?_, ?_, ?_, ?_⟩ <;>
    simp [hvacTick, newIntegral, effAirflow, chillerTarget, h]

/-- Witness for C1 at a concrete e-stop tick. -/
theorem estop_tick_invariant_witness :
    (hvacTick 1 initState { setpoint := 23, intake := 30, exhaust := 30, e_stop := true }
        zeroNoise).chiller_integral = 0 ∧
    effAirflow { setpoint := 23, intake := 30, exhaust := 30, e_stop := true } = 0 ∧
    (effAirflow { setpoint := 23, intake := 30, exhaust := 30, e_stop := true } / 100)
        * AIRFLOW_MAX_COOL = 0 ∧
    chillerTarget 1 initState { setpoint := 23, intake := 30, exhaust := 30, e_stop := true }
        = 0 :=
  estop_tick_invariant 1 initState
    { setpoint := 23, intake := 30, exhaust := 30, e_stop := true } zeroNoise rfl

/-- C2: after any single tick — whatever the commanded setpoint, fan values,
e-stop flag, prior state, and noise draws — the chiller output percentage lies
in `[0, 100]` and the room temperature lies in `[10, 40]`, because both are
clamped after the noise is added. -/
theorem tick_clamp_invariant (dt : ℚ) (s : ProcState) (inp : Inputs) (nz : Noise) :
    0 ≤ (hvacTick dt s inp nz).chiller_speed_pct ∧
    (hvacTick dt s inp nz).chiller_speed_pct ≤ 100 ∧
    10 ≤ (hvacTick dt s inp nz).current_temp_c ∧
    (hvacTick dt s inp nz).current_temp_c ≤ 40 := by
  refine ⟨?_, ?_, ?_, ?_⟩
  · exact clamp_lower 0 100 _
  · exact clamp_upper 0 100 _ (by norm_num)
  · exact clamp_lower 10 40 _
  · exact clamp_upper 10 40 _ (by norm_num)

/-- C3: on every tick with e-stop false, the controller computes exactly the
clamped mean airflow, the error-integrating clamped accumulator, and the
clamped PI demand — and the demand is formed from the already-updated,
already-clamped integral. -/
theorem normal_tick_pi_law (dt : ℚ) (s : ProcState) (inp : Inputs) (nz : Noise)
    (h : inp.e_stop = false) :
    effAirflow inp = clamp 0 100 ((inp.intake + inp.exhaust) / 2) ∧
    (hvacTick dt s inp nz).chiller_integral
      = clamp (-CHILLER_INT_LIMIT) CHILLER_INT_LIMIT
          (s.chiller_integral + (s.current_temp_c - inp.setpoint) * dt) ∧
    chillerTarget dt s inp
      = clamp 0 100
          (CHILLER_KP * (s.current_temp_c - inp.setpoint)
            + CHILLER_KI * (hvacTick dt s inp nz).chiller_integral) := by
  refine ⟨?_, ?_, ?_⟩ <;>
    simp [hvacTick, newIntegral, effAirflow, airflowCmd, chillerTarget, h]

/-- Witness for C3 at a concrete non-e-stop tick. -/
theorem normal_tick_pi_law_witness :
    effAirflow initInputs = clamp 0 100 ((initInputs.intake + initInputs.exhaust) / 2) ∧
    (hvacTick 1 initState initInputs zeroNoise).chiller_integral
      = clamp (-CHILLER_INT_LIMIT) CHILLER_INT_LIMIT
          (initState.chiller_integral
            + (initState.current_temp_c - initInputs.setpoint) * 1) ∧
    chillerTarget 1 initState initInputs
      = clamp 0 100
          (CHILLER_KP * (initState.current_temp_c - initInputs.setpoint)
            + CHILLER_KI * (hvacTick 1 initState initInputs zeroNoise).chiller_integral) :=
  normal_tick_pi_law 1 initState initInputs zeroNoise rfl

/-- C10: noninterference under e-stop — two ticks from the same prior state
with the same noise draws, both with e-stop commanded, produce identical
process states and identical published outputs, whatever the setpoint,
intake, and exhaust values in the two input snapshots. -/
theorem estop_noninterference (dt : ℚ) (s : ProcState) (inp1 inp2 : Inputs) (nz : Noise)
    (h1 : inp1.e_stop = true) (h2 : inp2.e_stop = true) :
    hvacTick dt s inp1 nz = hvacTick dt s inp2 nz ∧
    publishOutputs (hvacTick dt s inp1 nz) = publishOutputs (hvacTick dt s inp2 nz) := by
  have hmain : hvacTick dt s inp1 nz = hvacTick dt s inp2 nz := by
    simp [hvacTick, newTemp, coolingPower, newChiller, chillerTarget, newIntegral,
      effAirflow, h1, h2]
  exact ⟨hmain, by rw [hmain]⟩

/-- Witness for C10: two e-stop snapshots with entirely different commanded
values yield the same tick result. -/
theorem estop_noninterference_witness :
    hvacTick 1 initState { setpoint := 23, intake := 30, exhaust := 30, e_stop := true }
        zeroNoise
      = hvacTick 1 initState { setpoint := 99, intake := 0, exhaust := 100, e_stop := true }
        zeroNoise ∧
    publishOutputs (hvacTick 1 initState
        { setpoint := 23, intake := 30, exhaust := 30, e_stop := true } zeroNoise)
      = publishOutputs (hvacTick 1 initState
        { setpoint := 99, intake := 0, exhaust := 100, e_stop := true } zeroNoise) :=
  estop_noninterference 1 initState
    { setpoint := 23, intake := 30, exhaust := 30, e_stop := true }
    { setpoint := 99, intake := 0, exhaust := 100, e_stop := true } zeroNoise rfl rfl

theorem newChiller_estop (dt : ℚ) (s : ProcState) (inp : Inputs) (nz : Noise)
    (he : inp.e_stop = true) (hnz : nz.chiller = 0)
    (h0 : 0 ≤ s.chiller_speed_pct) (h100 : s.chiller_speed_pct ≤ 100) :
    newChiller dt s inp nz = (1 - CHILLER_LAG) * s.chiller_speed_pct := by
  have ht : chillerTarget dt s inp = 0 := by simp [chillerTarget, he]
  unfold newChiller
  rw [ht, hnz]
  have heq : s.chiller_speed_pct + (0 - s.chiller_speed_pct) * CHILLER_LAG + 0
      = (1 - CHILLER_LAG) * s.chiller_speed_pct := by ring
  have hb1 : (0 : ℚ) ≤ (1 - CHILLER_LAG) * s.chiller_speed_pct := by
    unfold CHILLER_LAG; nlinarith
  have hb2 : (1 - CHILLER_LAG) * s.chiller_speed_pct ≤ 100 := by
    unfold CHILLER_LAG; nlinarith
  rw [heq, clamp_eq_self 0 100 _ hb1 hb2]

/-- C8: with the e-stop held true and zero chiller noise, each tick multiplies
the chiller output by `1 - CHILLER_LAG`: the output is non-increasing, and
after `n` held ticks it equals `(1 - CHILLER_LAG)^n` times its starting value
— geometric decay toward 0 at the lag rate, not an instantaneous drop. -/
theorem estop_chiller_geometric_decay (dt : ℚ) (s : ProcState) (inp : Inputs) (nz : Noise)
    (he : inp.e_stop = true) (hnz : nz.chiller = 0)
    (h0 : 0 ≤ s.chiller_speed_pct) (h100 : s.chiller_speed_pct ≤ 100) :
    (hvacTick dt s inp nz).chiller_speed_pct
      = (1 - CHILLER_LAG) * s.chiller_speed_pct ∧
    (hvacTick dt s inp nz).chiller_speed_pct ≤ s.chiller_speed_pct ∧
    ∀ n : ℕ, (estopStep^[n] s).chiller_speed_pct
      = (1 - CHILLER_LAG) ^ n * s.chiller_speed_pct := by
  have hone : (hvacTick dt s inp nz).chiller_speed_pct
      = (1 - CHILLER_LAG) * s.chiller_speed_pct :=
    newChiller_estop dt s inp nz he hnz h0 h100
  refine ⟨hone, ?_, ?_⟩
  · rw [hone]; unfold CHILLER_LAG; nlinarith
  · have key : ∀ n : ℕ,
        (estopStep^[n] s).chiller_speed_pct
          = (1 - CHILLER_LAG) ^ n * s.chiller_speed_pct ∧
        0 ≤ (estopStep^[n] s).chiller_speed_pct ∧
        (estopStep^[n] s).chiller_speed_pct ≤ 100 := by
      intro n
      induction n with
      | zero => exact ⟨by simp, h0, h100⟩
      | succ n ih =>
        obtain ⟨hc, hl, hu⟩ := ih
        have hstep : (estopStep (estopStep^[n] s)).chiller_speed_pct
            = (1 - CHILLER_LAG) * (estopStep^[n] s).chiller_speed_pct :=
          newChiller_estop TICK_SECONDS (estopStep^[n] s) estopInputs zeroNoise rfl rfl hl hu
        rw [Function.iterate_succ_apply']
        refine ⟨?_, ?_, ?_⟩
        · rw [hstep, hc]; ring
        · rw [hstep]; unfold CHILLER_LAG; nlinarith
        · rw [hstep]; unfold CHILLER_LAG; nlinarith
    exact fun n => (key n).1

/-- Witness for C8: the e-stop held from the default state (chiller at 30 %). -/
theorem estop_chiller_geometric_decay_witness :
    (hvacTick 1 initState estopInputs zeroNoise).chiller_speed_pct
      = (1 - CHILLER_LAG) * initState.chiller_speed_pct ∧
    (hvacTick 1 initState estopInputs zeroNoise).chiller_speed_pct
      ≤ initState.chiller_speed_pct ∧
    ∀ n : ℕ, (estopStep^[n] initState).chiller_speed_pct
      = (1 - CHILLER_LAG) ^ n * initState.chiller_speed_pct :=
  estop_chiller_geometric_decay 1 initState estopInputs zeroNoise rfl rfl
    (by norm_num [initState]) (by norm_num [initState])

theorem ringAppend_drop {α : Type} (cap : ℕ) (xs : List α) (a : α) :
    ringAppend cap (xs.drop (xs.length - cap)) a
      = (xs ++ [a]).drop (xs.length + 1 - cap) := by
  simp only [ringAppend, List.length_append, List.length_drop, List.length_singleton]
  by_cases h : xs.length < cap
  · rw [if_neg (by omega)]
    rw [show xs.length - cap = 0 from by omega, show xs.length + 1 - cap = 0 from by omega]
    simp
  · push_neg at h
    rw [if_pos (by omega)]
    rw [show xs.length - (xs.length - cap) + 1 - cap = 1 from by omega]
    by_cases hc : cap = 0
    · subst hc
      simp only [Nat.sub_zero]
      rw [List.drop_length]
      have hr : (xs ++ [a]).drop (xs.length + 1) = [] := by
        apply List.drop_eq_nil_of_le
        simp
      rw [hr]
      rfl
    · rw [List.drop_append_of_le_length (by rw [List.length_drop]; omega),
        List.drop_drop,
        List.drop_append_of_le_length (show xs.length + 1 - cap ≤ xs.length from by omega),
        show xs.length - cap + 1 = xs.length + 1 - cap from by omega]

theorem ringOfList_eq_drop {α : Type} (cap : ℕ) (xs : List α) :
    ringOfList cap xs = xs.drop (xs.length - cap) := by
  induction xs using List.reverseRecOn with
  | nil => simp [ringOfList]
  | append_singleton xs a ih =>
    rw [ringOfList, List.foldl_append]
    simp only [List.foldl_cons, List.foldl_nil]
    rw [show xs.foldl (ringAppend cap) [] = ringOfList cap xs from rfl, ih, ringAppend_drop]
    simp

/-- C5: appending `TELEMETRY_CAPACITY + k` samples, one tick at a time, to the
initially empty fixed-capacity ring (capacity 600) leaves exactly the last
`TELEMETRY_CAPACITY` samples as a contiguous suffix in original append order:
the oldest `k` samples have been evicted first and nothing is reordered or
resurrected. -/
theorem telemetry_ring_keeps_last (k : ℕ) (xs : List TelemetrySample)
    (h : xs.length = TELEMETRY_CAPACITY + k) :
    ringOfList TELEMETRY_CAPACITY xs = xs.drop k := by
  have hk : TELEMETRY_CAPACITY + k - TELEMETRY_CAPACITY = k := by omega
  rw [ringOfList_eq_drop, h, hk]

/-- Witness for C5: a run of exactly 600 samples is kept whole. -/
theorem telemetry_ring_keeps_last_witness :
    ringOfList TELEMETRY_CAPACITY (List.replicate 600 sample0)
      = (List.replicate 600 sample0).drop 0 :=
  telemetry_ring_keeps_last 0 (List.replicate 600 sample0)
    (by rw [List.length_replicate]; norm_num [TELEMETRY_CAPACITY])

theorem tick1_eval : loopTick initState initInputs zeroNoise
    = { current_temp_c := 26419/1200, chiller_speed_pct := 21, chiller_integral := -1 } := by
  simp only [loopTick, TICK_SECONDS, hvacTick, newTemp, newChiller, newIntegral,
    chillerTarget, effAirflow, airflowCmd, coolingPower, clamp, AMBIENT_TEMP_C,
    INTERNAL_LOAD_DEGC, ROOM_TIME_CONSTANT, AIRFLOW_MAX_COOL, CHILLER_MAX_COOL,
    CHILLER_KP, CHILLER_KI, CHILLER_LAG, CHILLER_INT_LIMIT, initState, initInputs,
    zeroNoise]
  norm_num [max_def, min_def, ProcState.mk.injEq]

theorem publish1_eval : publish1 = { temp := 26419/1200, chill := 21 } := by
  rw [publish1, tick1_eval]
  rfl

theorem publish2_eval : publish2 = { temp := 3174053/144000, chill := 147/10 } := by
  rw [publish2, tick1_eval]
  simp only [loopTick, TICK_SECONDS, hvacTick, newTemp, newChiller, newIntegral,
    chillerTarget, effAirflow, airflowCmd, coolingPower, clamp, AMBIENT_TEMP_C,
    INTERNAL_LOAD_DEGC, ROOM_TIME_CONSTANT, AIRFLOW_MAX_COOL, CHILLER_MAX_COOL,
    CHILLER_KP, CHILLER_KI, CHILLER_LAG, CHILLER_INT_LIMIT, initInputs, zeroNoise,
    publishOutputs]
  norm_num [max_def, min_def, Published.mk.injEq]

/-- C6 counterexample: a reader that samples the two published points between
the two publish writes of the second tick (after line 230, before line 231)
observes the second tick's temperature paired with the first tick's chiller
output — a pair produced by two different ticks, so the publish is not
observed as a whole or not at all. -/
theorem torn_publish_counterexample :
    observeDuringPublish publish1 publish2 1
      = { temp := publish2.temp, chill := publish1.chill } ∧
    observeDuringPublish publish1 publish2 1 ≠ publish1 ∧
    observeDuringPublish publish1 publish2 1 ≠ publish2 := by
  refine ⟨rfl, ?_, ?_⟩ <;>
    simp [publish1_eval, publish2_eval, observeDuringPublish, publishSeq,
      publishTempWrite, publishChillWrite, Published.mk.injEq] <;>
    norm_num

/-- C6 (amended): the end-of-tick publish is two separate unsynchronized
writes (temperature at line 230, then chiller at line 231). A reader that
samples before the first write or after the second observes a single tick's
consistent pair, but a reader that samples between the two writes observes
the new temperature paired with the previous tick's chiller output. -/
theorem publish_interleavings (old target : Published) :
    observeDuringPublish old target 0 = old ∧
    observeDuringPublish old target 2 = target ∧
    observeDuringPublish old target 1
      = { temp := target.temp, chill := old.chill } := by
  refine ⟨rfl, ?_, rfl⟩
  obtain ⟨t, c⟩ := target
  rfl

/-- C4 counterexample: a tick evaluated with `dt = -1` updates the process
state (the integrator accumulates and the lag filter moves the chiller)
instead of being skipped with the state unchanged. -/
theorem dt_guard_counterexample :
    hvacTick (-1) initState initInputs zeroNoise ≠ initState := by
  simp only [hvacTick, newTemp, newChiller, newIntegral, chillerTarget, effAirflow,
    airflowCmd, coolingPower, clamp, AMBIENT_TEMP_C, INTERNAL_LOAD_DEGC,
    ROOM_TIME_CONSTANT, AIRFLOW_MAX_COOL, CHILLER_MAX_COOL, CHILLER_KP, CHILLER_KI,
    CHILLER_LAG, CHILLER_INT_LIMIT, initState, initInputs, zeroNoise]
  norm_num [max_def, min_def, ProcState.mk.injEq]

/-- C4 (amended): the loop contains no guard on the tick duration: `dt` is
hard-wired to the constant `TICK_SECONDS = 1`, which is positive, so no tick
with `dt ≤ 0` ever occurs in operation — and a hypothetical tick evaluated at
any `dt ≤ 0` changes the process state rather than being skipped. -/
theorem dt_hardwired_positive (dt : ℚ) (h : dt ≤ 0) :
    0 < TICK_SECONDS ∧
    (∀ (s : ProcState) (inp : Inputs) (nz : Noise),
      loopTick s inp nz = hvacTick TICK_SECONDS s inp nz) ∧
    hvacTick dt initState initInputs zeroNoise ≠ initState := by
  refine ⟨by norm_num [TICK_SECONDS], fun s inp nz => rfl, ?_⟩
  have hst : initState.current_temp_c = 22 := rfl
  have hsp : initState.chiller_speed_pct = 30 := rfl
  have hsi : initState.chiller_integral = 0 := rfl
  have hset : initInputs.setpoint = 23 := rfl
  have hes : initInputs.e_stop = false := rfl
  have hnzc : zeroNoise.chiller = 0 := rfl
  have hI1 : 0 ≤ newIntegral dt initState initInputs := by
    simp only [newIntegral, hes, Bool.false_eq_true, if_false, hsi, hst, hset, clamp,
      CHILLER_INT_LIMIT]
    refine le_trans (le_min ?_ ?_) (le_max_right _ _)
    · norm_num
    · nlinarith
  have hI2 : newIntegral dt initState initInputs ≤ 200 := by
    simp only [newIntegral, hes, Bool.false_eq_true, if_false, clamp, CHILLER_INT_LIMIT]
    exact max_le (by norm_num) (min_le_left _ _)
  have hT1 : 0 ≤ chillerTarget dt initState initInputs := by
    simp only [chillerTarget, hes, Bool.false_eq_true, if_false]
    exact clamp_lower 0 100 _
  have hT2 : chillerTarget dt initState initInputs ≤ 20 := by
    simp only [chillerTarget, hes, Bool.false_eq_true, if_false, clamp, CHILLER_KP,
      CHILLER_KI, hst, hset]
    refine max_le (by norm_num) (le_trans (min_le_right _ _) ?_)
    nlinarith [hI2]
  have hC : newChiller dt initState initInputs zeroNoise
      = 21 + (3/10) * chillerTarget dt initState initInputs := by
    simp only [newChiller, hsp, hnzc, CHILLER_LAG]
    rw [show (30:ℚ) + (chillerTarget dt initState initInputs - 30) * (3/10) + 0
        = 21 + (3/10) * chillerTarget dt initState initInputs from by ring]
    exact clamp_eq_self 0 100 _ (by nlinarith [hT1]) (by nlinarith [hT2])
  intro hEq
  have hfield := congrArg ProcState.chiller_speed_pct hEq
  simp only [hvacTick] at hfield
  rw [hC, hsp] at hfield
  nlinarith [hT2, hT1]

/-- Witness for C4's amended statement at the concrete invalid duration
`dt = -1`. -/
theorem dt_hardwired_positive_witness :
    0 < TICK_SECONDS ∧
    (∀ (s : ProcState) (inp : Inputs) (nz : Noise),
      loopTick s inp nz = hvacTick TICK_SECONDS s inp nz) ∧
    hvacTick (-1) initState initInputs zeroNoise ≠ initState :=
  dt_hardwired_positive (-1) (by norm_num)

/-- C9 counterexample: with an input snapshot commanding the intake fan to
80 % and the exhaust fan to 20 %, the appended telemetry sample's intake
field holds the derived airflow 50 (the clamped fan mean), not the commanded
intake value 80. -/
theorem telemetry_intake_counterexample :
    (tickSample 1 initState unevenFans zeroNoise 0).intake = 50 ∧
    unevenFans.intake = 80 ∧
    (tickSample 1 initState unevenFans zeroNoise 0).intake ≠ unevenFans.intake := by
  refine ⟨?_, rfl, ?_⟩ <;>
    simp only [tickSample, effAirflow, airflowCmd, clamp, unevenFans] <;>
    norm_num [max_def, min_def]

/-- C9 (amended): every tick appends exactly one telemetry sample, whose
fields are the tick's timestamp, the updated room temperature, the commanded
setpoint, the updated chiller output, the derived airflow (the clamped mean
of the commanded fans, forced to 0 under e-stop), and the commanded exhaust
fan value. -/
theorem telemetry_sample_fields (dt : ℚ) (s : ProcState) (inp : Inputs) (nz : Noise)
    (now : ℚ) :
    tickSample dt s inp nz now
      = { timestamp := now
          temp := (hvacTick dt s inp nz).current_temp_c
          setp := inp.setpoint
          chill := (hvacTick dt s inp nz).chiller_speed_pct
          intake := effAirflow inp
          exhaust := inp.exhaust } := rfl

theorem clamp_eq_lo (lo hi x : ℚ) (h1 : x ≤ lo) (h2 : lo ≤ hi) : clamp lo hi x = lo := by
  unfold clamp
  rw [min_eq_right (le_trans h1 h2), max_eq_left h1]

theorem scenStep_eval (s : ProcState) (hc : s.chiller_speed_pct = 0)
    (hi1 : -(10 : ℚ) ≤ s.chiller_integral) (hi2 : s.chiller_integral ≤ 0)
    (ht1 : 22 ≤ s.current_temp_c) (ht2 : s.current_temp_c ≤ 2251/100) :
    scenStep s
      = { current_temp_c :=
            s.current_temp_c + ((29 - s.current_temp_c) / 120 - 3/400)
          chiller_speed_pct := 0
          chiller_integral := s.chiller_integral + (s.current_temp_c - 23) } := by
  have hes : scenInputs.e_stop = false := rfl
  have hset : scenInputs.setpoint = 23 := rfl
  have hair : effAirflow scenInputs = 30 := by
    simp only [effAirflow, airflowCmd, hes, Bool.false_eq_true, if_false]
    norm_num [scenInputs, initInputs, clamp, max_def, min_def]
  have hint : newIntegral 1 s scenInputs = s.chiller_integral + (s.current_temp_c - 23) := by
    simp only [newIntegral, hes, Bool.false_eq_true, if_false, hset, mul_one,
      CHILLER_INT_LIMIT]
    exact clamp_eq_self _ _ _ (by linarith) (by linarith)
  have htgt : chillerTarget 1 s scenInputs = 0 := by
    simp only [chillerTarget, hes, Bool.false_eq_true, if_false, hset, CHILLER_KP,
      CHILLER_KI, hint]
    exact clamp_eq_lo 0 100 _ (by nlinarith) (by norm_num)
  have hch : newChiller 1 s scenInputs zeroNoise = 0 := by
    simp only [newChiller, htgt, hc, CHILLER_LAG]
    have hz : (0 : ℚ) + (0 - 0) * (3/10) + zeroNoise.chiller = 0 := by
      norm_num [zeroNoise]
    rw [hz]
    exact clamp_eq_self 0 100 0 le_rfl (by norm_num)
  have hcool : coolingPower 1 s scenInputs zeroNoise = 3/400 := by
    simp only [coolingPower, hair, hch, AIRFLOW_MAX_COOL, CHILLER_MAX_COOL]
    norm_num
  have htemp : newTemp 1 s scenInputs zeroNoise
      = s.current_temp_c + ((29 - s.current_temp_c) / 120 - 3/400) := by
    simp only [newTemp, hcool, AMBIENT_TEMP_C, INTERNAL_LOAD_DEGC, ROOM_TIME_CONSTANT,
      mul_one]
    have hz : s.current_temp_c + ((24 + 5 - s.current_temp_c) / 120 - 3/400)
          + zeroNoise.temp
        = s.current_temp_c + ((29 - s.current_temp_c) / 120 - 3/400) := by
      norm_num [zeroNoise]
    rw [hz]
    exact clamp_eq_self _ _ _ (by linarith) (by linarith)
  simp only [scenStep, hvacTick, htemp, hch, hint]

theorem scenState_props (n : ℕ) (hn : n ≤ 10) :
    (scenState n).chiller_speed_pct = 0 ∧
    -(n : ℚ) ≤ (scenState n).chiller_integral ∧
    (scenState n).chiller_integral ≤ 0 ∧
    22 ≤ (scenState n).current_temp_c ∧
    (scenState n).current_temp_c ≤ 22 + (51/1000) * n := by
  induction n with
  | zero =>
    refine ⟨rfl, ?_, ?_, ?_, ?_⟩ <;> norm_num [scenState, scenInit]
  | succ n ih =>
    obtain ⟨hc, hi1, hi2, ht1, ht2⟩ := ih (by omega)
    have hcast : (n : ℚ) ≤ 10 := by exact_mod_cast Nat.le_of_succ_le hn
    have hcast0 : (0 : ℚ) ≤ (n : ℚ) := Nat.cast_nonneg n
    have ht2' : (scenState n).current_temp_c ≤ 2251/100 := by nlinarith
    have hi1' : -(10 : ℚ) ≤ (scenState n).chiller_integral := by linarith
    have hstep := scenStep_eval (scenState n) hc hi1' hi2 ht1 ht2'
    have hsucc : scenState (n + 1) = scenStep (scenState n) := by
      unfold scenState
      rw [Function.iterate_succ_apply']
    rw [hsucc, hstep]
    push_cast
    refine ⟨rfl, ?_, ?_, ?_, ?_⟩
    · linarith
    · linarith
    · linarith
    · nlinarith

/-- C7 (amended): in the scenario starting from setpoint 23 °C, room 22 °C,
chiller output 0 %, gains Kp = 40 and Ki = 0.3, zero noise, and ten ticks of
dt = 1 s, the room is colder than the setpoint, so the chiller demand clamps
to 0 and the chiller output stays exactly 0 on every tick (it does not rise),
while the room temperature strictly increases each tick and stays at or below
23 °C — moving monotonically toward the setpoint with no oscillation. -/
theorem scenario_10_ticks (i : ℕ) (h : i < 10) :
    (scenState (i + 1)).chiller_speed_pct = 0 ∧
    (scenState i).current_temp_c < (scenState (i + 1)).current_temp_c ∧
    (scenState (i + 1)).current_temp_c ≤ 23 := by
  obtain ⟨hc, hi1, hi2, ht1, ht2⟩ := scenState_props i (by omega)
  have hcast : (i : ℚ) ≤ 9 := by exact_mod_cast Nat.lt_succ_iff.mp h
  have hcast0 : (0 : ℚ) ≤ (i : ℚ) := Nat.cast_nonneg i
  have ht2' : (scenState i).current_temp_c ≤ 2251/100 := by nlinarith
  have hi1' : -(10 : ℚ) ≤ (scenState i).chiller_integral := by linarith
  have hstep := scenStep_eval (scenState i) hc hi1' hi2 ht1 ht2'
  have hsucc : scenState (i + 1) = scenStep (scenState i) := by
    unfold scenState
    rw [Function.iterate_succ_apply']
  rw [hsucc, hstep]
  refine ⟨rfl, ?_, ?_⟩
  · linarith
  · nlinarith

/-- Witness for C7's amended statement at the first tick of the scenario. -/
theorem scenario_10_ticks_witness :
    (scenState 1).chiller_speed_pct = 0 ∧
    (scenState 0).current_temp_c < (scenState 1).current_temp_c ∧
    (scenState 1).current_temp_c ≤ 23 :=
  scenario_10_ticks 0 (by norm_num)

/-- C7 counterexample: after the ten scenario ticks the chiller output
percentage is still exactly 0 — it has not risen from 0 toward a positive
value as the claim states. -/
theorem scenario_chiller_stays_zero :
    (scenState 10).chiller_speed_pct = 0 ∧
    ¬ 0 < (scenState 10).chiller_speed_pct := by
  obtain ⟨hc, -, -, -, -⟩ := scenState_props 10 le_rfl
  exact ⟨hc, by rw [hc]; exact lt_irrefl 0⟩

end HvacSim
